import Mathlib

/-!
Verification of the two artifacts of this repository slice:

* the `PopupManager` pattern from
  `packages/docs/src/routes/docs/cookbook/modal/index.mdx`
  (the `popup-manager.tsx` code embedded in that page), and
* the joke CLI subcommand from
  `packages/qwik/src/cli/joke/run-joke-command.ts`.

The popup manager holds `useSignal<{ Component; props }>()`, i.e. a single
optional (component, props) pair; `show` overwrites it, `hide` clears it,
and the component renders `<Slot/>` followed, when the signal is set, by
`<div class="modal">` containing one instance of the stored component
applied to the stored props.
-/

namespace Popup

/-- The signal value of the popup manager:
`useSignal<{ Component: Component<any>; props: any }>()`,
an optional record of a component reference and its props bag.
`C` is the type of component references, `P` the type of props bags. -/
structure ModalState (C P : Type) where
  modal : Option (C × P)
deriving DecidableEq, Repr

/-- `show: $((component, props) => { modal.value = { Component: component, props }; })` -/
def «show» {C P : Type} (component : C) (props : P) (_s : ModalState C P) :
    ModalState C P :=
  { modal := some (component, props) }

/-- `hide: $(() => { modal.value = undefined; })` -/
def hide {C P : Type} (_s : ModalState C P) : ModalState C P :=
  { modal := none }

/-- A rendered virtual-DOM node: the projected `<Slot/>`, an element such as
`<div class="modal">` with children, or an instance of a component invoked
with a props bag. -/
inductive VNode (C P : Type) where
  | slot : VNode C P
  | div (cls : String) (children : List (VNode C P)) : VNode C P
  | inst (component : C) (props : P) : VNode C P

/-- The render function of `PopupManager`:
`<> <Slot/> { modal.value && <div class="modal"><modal.value.Component {...modal.value.props}/></div> } </>`. -/
def render {C P : Type} (s : ModalState C P) : List (VNode C P) :=
  [VNode.slot] ++
    (match s.modal with
     | some cp => [VNode.div "modal" [VNode.inst cp.1 cp.2]]
     | none => [])

mutual

/-- Number of instances of component `c` invoked with props `p` in a node. -/
def countInstNode {C P : Type} [DecidableEq C] [DecidableEq P]
    (c : C) (p : P) : VNode C P → Nat
  | VNode.slot => 0
  | VNode.div _ children => countInstList c p children
  | VNode.inst c' p' => if c' = c ∧ p' = p then 1 else 0

/-- Number of instances of component `c` invoked with props `p` in a forest. -/
def countInstList {C P : Type} [DecidableEq C] [DecidableEq P]
    (c : C) (p : P) : List (VNode C P) → Nat
  | [] => 0
  | n :: ns => countInstNode c p n + countInstList c p ns

end

mutual

/-- Number of instances of component `c` with ANY props bag in a node. -/
def countCompNode {C P : Type} [DecidableEq C] (c : C) : VNode C P → Nat
  | VNode.slot => 0
  | VNode.div _ children => countCompList c children
  | VNode.inst c' _ => if c' = c then 1 else 0

/-- Number of instances of component `c` with ANY props bag in a forest. -/
def countCompList {C P : Type} [DecidableEq C] (c : C) : List (VNode C P) → Nat
  | [] => 0
  | n :: ns => countCompNode c n + countCompList c ns

end

/-- The overlay `<div class="modal">` content of the rendered output:
the list of (component, props) instances rendered inside it. -/
def activePopups {C P : Type} (s : ModalState C P) : List (C × P) :=
  s.modal.toList

end Popup

namespace Joke

/-- Modelled from the spec: `getRandomJoke` lives in
`packages/create-qwik/jokes`, which is not part of this repository slice;
per the spec it "selects one entry uniformly at random from a fixed
in-memory list and returns its two parts".  The random draw is made
explicit as a natural number `r`; the selected entry is the one at index
`r % jokes.length`, so a draw uniform on `0 ≤ r < jokes.length` selects
each index with equal probability.  An empty list yields `none`
(JavaScript: indexing past the end yields `undefined`). -/
def getRandomJoke (jokes : List (String × String)) (r : Nat) :
    Option (String × String) :=
  jokes[(r % jokes.length)]?

/-- The whitespace characters removed by JavaScript's `String.prototype.trim`
(restricted to the characters that can occur in this repository's data:
ASCII whitespace, no-break space and the byte-order mark). -/
def isJsWhitespace (c : Char) : Bool :=
  c == ' ' || c == '\t' || c == '\n' || c == '\r' ||
  c == '\x0b' || c == '\x0c' || c == '\u00A0' || c == '\uFEFF'

/-- JavaScript's `setup.trim()`: remove leading and trailing whitespace. -/
def jsTrim (s : String) : String :=
  String.mk
    (((s.data.dropWhile isJsWhitespace).reverse.dropWhile isJsWhitespace).reverse)

/-- What the joke command hands to the terminal: the message text and the
decorative glyph.  Modelled from the spec: `note` (from `../utils/utils`,
not part of this slice) "writes two lines of text plus a fixed decorative
glyph to standard output"; `magenta` (external library `kleur`) only
colors the text, and terminal color formatting is out of the spec's
scope, so it is modelled as the identity on the text content. -/
structure Output where
  text : String
  glyph : String
deriving DecidableEq, Repr

/-- `runJokeCommand` from `packages/qwik/src/cli/joke/run-joke-command.ts`:

```
const [setup, punchline] = getRandomJoke();
note(magenta(`${setup!.trim()}\n${punchline!.trim()}`), '🙈');
```

If `getRandomJoke` produced no entry (empty list), the destructuring of
`undefined` would throw, modelled as `Except.error`; otherwise the command
prints the trimmed setup, a newline, and the trimmed punchline, with the
🙈 glyph. -/
def runJokeCommand (jokes : List (String × String)) (r : Nat) :
    Except String Output :=
  match getRandomJoke jokes r with
  | none => Except.error "TypeError: getRandomJoke() is not iterable"
  | some (setup, punchline) =>
      Except.ok { text := jsTrim setup ++ "\n" ++ jsTrim punchline, glyph := "🙈" }

/-- The spec's end-to-end example list: a single entry. -/
def chickenList : List (String × String) :=
  [("Why did the chicken cross the road?", "To get to the other side.")]

end Joke

namespace Popup

/-- C1: after `show(C, P)`, the rendered output contains exactly one
instance of `C` invoked with props `P`, and it sits inside the
`<div class="modal">` overlay. -/
theorem show_renders_exactly_one {C P : Type} [DecidableEq C] [DecidableEq P]
    (c : C) (p : P) (s : ModalState C P) :
    countInstList c p (render («show» c p s)) = 1 ∧
    render («show» c p s) =
      [VNode.slot, VNode.div "modal" [VNode.inst c p]] := by
  constructor
  · simp [render, «show», countInstList, countInstNode]
  · rfl

/-- C2: after `hide()`, the rendered output contains zero instances of any
component with any props: the overlay is gone entirely. -/
theorem hide_renders_zero {C P : Type} [DecidableEq C]
    (s : ModalState C P) (c : C) :
    countCompList c (render (hide s)) = 0 ∧ render (hide s) = [VNode.slot] := by
  constructor
  · simp [render, hide, countCompList, countCompNode]
  · rfl

/-- C3: `hide` is idempotent: hiding when nothing is shown is a no-op on the
empty state, and `hide ∘ hide` equals a single `hide` on every state. -/
theorem hide_idempotent {C P : Type} (s : ModalState C P) :
    hide (hide s) = hide s ∧ hide ({ modal := none } : ModalState C P) =
      { modal := none } := by
  constructor <;> rfl

/-- C4: `show` is last-writer-wins: showing `(c', p')` over a state that
already shows `(c, p)` yields exactly the state showing `(c', p')`; nothing
of `(c, p)` remains in the state or in the rendered output (as long as
`(c', p') ≠ (c, p)`). -/
theorem show_last_writer_wins {C P : Type} [DecidableEq C] [DecidableEq P]
    (c c' : C) (p p' : P) (s : ModalState C P)
    (hne : (c', p') ≠ (c, p)) :
    «show» c' p' («show» c p s) = { modal := some (c', p') } ∧
    countInstList c p (render («show» c' p' («show» c p s))) = 0 := by
  refine ⟨rfl, ?_⟩
  simp only [render, «show», countInstList, countInstNode]
  have : ¬(c' = c ∧ p' = p) := by
    intro ⟨h1, h2⟩
    exact hne (by simp [h1, h2])
  simp [this]

/-- Witness for the last-writer-wins theorem at concrete inputs:
components and props bags are numbered. -/
theorem show_last_writer_wins_witness :
    «show» 1 1 («show» 0 0 ({ modal := none } : ModalState Nat Nat)) =
      { modal := some (1, 1) } ∧
    countInstList 0 0
      (render («show» 1 1 («show» 0 0 ({ modal := none } : ModalState Nat Nat)))) =
      0 :=
  show_last_writer_wins 0 1 0 1 { modal := none } (by decide)

/-- C5: at most one popup is active at a time: the state is a single
optional pair, so every state has at most one active popup, and both
`show` and `hide` preserve that bound. -/
theorem at_most_one_popup {C P : Type} (s : ModalState C P) (c : C) (p : P) :
    (activePopups s).length ≤ 1 ∧
    (activePopups («show» c p s)).length ≤ 1 ∧
    (activePopups (hide s)).length ≤ 1 := by
  refine ⟨?_, ?_, ?_⟩
  · cases h : s.modal <;> simp [activePopups, h]
  · simp [activePopups, «show»]
  · simp [activePopups, hide]

end Popup

namespace Joke

/-- C6: every (setup, punchline) pair the joke selector returns, whatever
the random draw and however many times it is called, is an element of the
fixed joke list. -/
theorem getRandomJoke_mem (jokes : List (String × String)) (r : Nat)
    (j : String × String) (h : getRandomJoke jokes r = some j) : j ∈ jokes :=
  List.getElem?_mem h

/-- Witness for the membership theorem on the single-entry example list. -/
theorem getRandomJoke_mem_witness :
    ("Why did the chicken cross the road?", "To get to the other side.") ∈
      chickenList :=
  getRandomJoke_mem chickenList 5 _ rfl

/-- C7: the joke selector is uniform and leaves no entry unreachable:
every list entry is returned under some draw; the selector applied to the
canonical draws `0, …, length−1` (each equally likely under a uniform
draw) enumerates the list exactly; hence each pair is selected by exactly
as many canonical draws as it has occurrences in the list — equal
probability for each entry. -/
theorem getRandomJoke_uniform (jokes : List (String × String)) :
    (∀ j ∈ jokes, ∃ r, getRandomJoke jokes r = some j) ∧
    (List.range jokes.length).map (getRandomJoke jokes) = jokes.map some ∧
    ∀ j, ((List.range jokes.length).filter
        (fun r => getRandomJoke jokes r == some j)).length = jokes.count j := by
  have hmap : (List.range jokes.length).map (getRandomJoke jokes) =
      jokes.map some := by
    apply List.ext_getElem?
    intro n
    by_cases h : n < jokes.length
    · simp [getRandomJoke, List.getElem?_map, List.getElem?_range, h,
        List.getElem?_eq_getElem, Nat.mod_eq_of_lt h]
    · have h1 : jokes.length ≤ n := Nat.le_of_not_lt h
      simp [List.getElem?_map, List.getElem?_eq_none, h1]
  refine ⟨?_, hmap, ?_⟩
  · intro j hj
    obtain ⟨i, hi, hget⟩ := List.mem_iff_getElem.mp hj
    refine ⟨i, ?_⟩
    show jokes[(i % jokes.length)]? = some j
    rw [Nat.mod_eq_of_lt hi, List.getElem?_eq_getElem hi, hget]
  · intro j
    have h1 : ((List.range jokes.length).filter
        (fun r => getRandomJoke jokes r == some j)).length =
        List.countP (fun o => o == some j)
          ((List.range jokes.length).map (getRandomJoke jokes)) := by
      rw [List.countP_map, ← List.countP_eq_length_filter]
      rfl
    rw [h1, hmap, List.countP_map]
    rw [List.count]
    apply List.countP_congr
    intro a _
    simp

/-- C8: end-to-end example: on the single-entry chicken list, every run of
the joke command selects that entry and prints exactly
`"Why did the chicken cross the road?\nTo get to the other side."` with
the 🙈 glyph. -/
theorem runJokeCommand_chicken (r : Nat) :
    getRandomJoke chickenList r =
      some ("Why did the chicken cross the road?", "To get to the other side.") ∧
    runJokeCommand chickenList r =
      Except.ok
        { text := "Why did the chicken cross the road?\nTo get to the other side.",
          glyph := "🙈" } := by
  have h0 : getRandomJoke chickenList r =
      some ("Why did the chicken cross the road?", "To get to the other side.") := by
    show chickenList[(r % chickenList.length)]? = _
    have h : r % chickenList.length = 0 := Nat.mod_one r
    rw [h]
    rfl
  refine ⟨h0, ?_⟩
  unfold runJokeCommand
  rw [h0]
  rfl

/-- C9: the joke command always succeeds: on any non-empty joke list it
returns normally (an `ok` result), whatever the random draw, so there is
no exit-code variation. -/
theorem runJokeCommand_ok (jokes : List (String × String)) (r : Nat)
    (h : jokes ≠ []) : (runJokeCommand jokes r).isOk = true := by
  have hlen : 0 < jokes.length := List.length_pos.mpr h
  have hlt : r % jokes.length < jokes.length := Nat.mod_lt r hlen
  have hj : ∃ a b, getRandomJoke jokes r = some (a, b) := by
    refine ⟨(jokes.get ⟨r % jokes.length, hlt⟩).1,
      (jokes.get ⟨r % jokes.length, hlt⟩).2, ?_⟩
    show jokes[(r % jokes.length)]? = _
    rw [List.getElem?_eq_getElem hlt]
    rfl
  obtain ⟨a, b, hj⟩ := hj
  unfold runJokeCommand
  rw [hj]
  rfl

/-- Witness for the success theorem on the single-entry example list. -/
theorem runJokeCommand_ok_witness : (runJokeCommand chickenList 3).isOk = true :=
  runJokeCommand_ok chickenList 3 (by decide)

/-- C10: before printing, the command trims leading and trailing
whitespace from both parts: whenever the selector returns
`(setup, punchline)`, the printed text is `setup.trim()`, a newline, then
`punchline.trim()` — not the raw strings. -/
theorem runJokeCommand_trims (jokes : List (String × String)) (r : Nat)
    (setup punchline : String)
    (h : getRandomJoke jokes r = some (setup, punchline)) :
    runJokeCommand jokes r =
      Except.ok { text := jsTrim setup ++ "\n" ++ jsTrim punchline,
                  glyph := "🙈" } := by
  unfold runJokeCommand
  rw [h]

/-- Witness for the trimming theorem on an entry with surrounding
whitespace: the printed text is the trimmed form, not the raw strings. -/
theorem runJokeCommand_trims_witness :
    runJokeCommand [("  spaced setup ", "\tspaced punchline\n")] 0 =
      Except.ok { text := "spaced setup\nspaced punchline", glyph := "🙈" } := by
  have h := runJokeCommand_trims [("  spaced setup ", "\tspaced punchline\n")] 0
    "  spaced setup " "\tspaced punchline\n" rfl
  rw [h]
  rfl

end Joke
